import Mathlib

/-!
Verification development for the deriv-trading-suite backend.

Shallow embedding of the core trading components:
* `backend/src/trading/position_manager.py` (`PositionManager`)
* `backend/src/trading/order_executor.py` (`OrderExecutor._handle_contract_update`)
* `backend/src/core/risk_manager.py` (`RiskManager`)
* `backend/src/core/signal_consensus.py` (`SignalConsensus.aggregate`)

Python `float` values are modelled as `ℚ` (the numeric literals appearing in
the source are exact decimals), Python `int` as `ℤ`, Python `str` as `String`,
Python `None`-able values as `Option`, Python `dict` maps keyed by strings as
association lists `List (String × _)`, and Python `set` as a `List String`
with membership insertion.  `time.time()` is threaded through as an explicit
`now : ℚ` argument.
-/

-- The Batteries rational-number operations are `@[irreducible]`; concrete
-- evaluation of the embedded programs needs them unfolded.
attribute [local semireducible] Rat.add Rat.sub Rat.mul Rat.inv Rat.ofScientific

/-- Python `str(x)` applied to an `Optional[str]`: `str(None) = "None"`. -/
def pyStr (o : Option String) : String := o.getD "None"

/-- Python truthiness of an `Optional[float]`: `None` and `0.0` are falsy. -/
def pyTruthy (o : Option ℚ) : Bool :=
  match o with
  | none => false
  | some q => q ≠ 0

/-! ## PositionManager (`backend/src/trading/position_manager.py`) -/

/-- One entry of `PositionManager.active_positions` (the per-position dict
built in `add_position`).  `closed_at`/`payout` are written by `mark_closed`
immediately before the entry is removed from the active map. -/
structure Position where
  trade_id : String
  contract_id : String
  uuid : Option String
  side : String
  entry_price : ℚ
  opened_at : ℚ
  expires_at : Option ℚ
  status : String
  closed_at : Option ℚ := none
  payout : Option ℚ := none
  deriving Repr, DecidableEq

/-- In-memory state of a `PositionManager` instance. -/
structure PMState where
  /-- `active_positions : Dict[str, Dict]`, keyed by `contract_id`. -/
  active_positions : List (String × Position)
  /-- `contract_id_to_uuid : Dict[str, str]`. -/
  contract_id_to_uuid : List (String × String)
  /-- `uuid_to_contract_id : Dict[str, str]`. -/
  uuid_to_contract_id : List (String × String)
  /-- `_cleaned : set` of identifiers (contract ids and uuids). -/
  cleaned : List String
  deriving Repr, DecidableEq

/-- `PositionManager.__init__`. -/
def PMState.init : PMState :=
  { active_positions := [], contract_id_to_uuid := [], uuid_to_contract_id := [],
    cleaned := [] }

/-- Python dict assignment `d[k] = v`: replace the binding if the key exists,
otherwise append it. -/
def dictSet (l : List (String × α)) (k : String) (v : α) : List (String × α) :=
  if (l.lookup k).isSome then l.map (fun p => if p.1 = k then (k, v) else p)
  else l ++ [(k, v)]

/-- Python `d.pop(k, None)`: remove the binding for `k` if present. -/
def dictPop (l : List (String × α)) (k : String) : List (String × α) :=
  l.filter (fun p => p.1 ≠ k)

/-- Python `set.add`: insert if not already present. -/
def setAdd (l : List String) (x : String) : List String :=
  if x ∈ l then l else l ++ [x]

/-- `PositionManager.add_position`: registers a new active position keyed by
`contract_id` (already a string in the model). -/
def add_position (s : PMState) (trade_id contract_id side : String)
    (entry_price : ℚ) (expires_at : Option ℚ) (now : ℚ) : PMState :=
  let pos : Position :=
    { trade_id := trade_id, contract_id := contract_id, uuid := none,
      side := side, entry_price := entry_price, opened_at := now,
      expires_at := expires_at, status := "ACTIVE" }
  { s with active_positions := dictSet s.active_positions contract_id pos }

/-- `PositionManager.update_contract_uuid`: records the bidirectional
contract-id/uuid alias; ignored (with a warning) if `contract_id` is not an
active position. -/
def update_contract_uuid (s : PMState) (contract_id uuid : String) : PMState :=
  match s.active_positions.lookup contract_id with
  | none => s
  | some pos =>
      let pos' : Position := { pos with uuid := some uuid }
      { s with
        active_positions := dictSet s.active_positions contract_id pos',
        contract_id_to_uuid := dictSet s.contract_id_to_uuid contract_id uuid,
        uuid_to_contract_id := dictSet s.uuid_to_contract_id uuid contract_id }

/-- `PositionManager.get_position`: resolve by `contract_id` first, then by
uuid through `uuid_to_contract_id`. -/
def get_position (s : PMState) (identifier : String) : Option Position :=
  match s.active_positions.lookup identifier with
  | some pos => some pos
  | none =>
      match s.uuid_to_contract_id.lookup identifier with
      | some contract_id => s.active_positions.lookup contract_id
      | none => none

/-- `PositionManager.mark_closed`: resolve the position, record every
identifier associated with it (`contract_id`, the identifier used, and the
uuid if one is mapped) in the permanent `_cleaned` set, drop the alias
mappings and remove the position from the active map.  The source also writes
`status`/`closed_at`/`payout` into the position dict right before popping it
from `active_positions`; the mutated dict is dropped with the entry, so the
write has no observable effect on the remaining state. -/
def mark_closed (s : PMState) (identifier : String) (result : String)
    (payout : Option ℚ) (now : ℚ) : PMState :=
  match get_position s identifier with
  | none => s
  | some pos =>
      let contract_id := pos.contract_id
      let uuid := pos.uuid
      let _closedPos : Position :=
        { pos with status := result, closed_at := some now, payout := payout }
      let cleaned₁ := setAdd (setAdd s.cleaned contract_id) identifier
      let cleaned₂ := match uuid with
        | some u => setAdd cleaned₁ u
        | none => cleaned₁
      let uuidMap := match uuid with
        | some u => dictPop s.uuid_to_contract_id u
        | none => s.uuid_to_contract_id
      { active_positions := dictPop s.active_positions contract_id,
        contract_id_to_uuid := dictPop s.contract_id_to_uuid contract_id,
        uuid_to_contract_id := uuidMap,
        cleaned := cleaned₂ }

/-- `PositionManager.is_cleaned`. -/
def is_cleaned (s : PMState) (identifier : String) : Bool :=
  identifier ∈ s.cleaned

/-- `PositionManager.get_open_count`. -/
def get_open_count (s : PMState) : ℕ := s.active_positions.length

/-! ## RiskManager (`backend/src/core/risk_manager.py`)

The manager is built from `RiskConfig` defaults overridden by
`config/settings.py` defaults (no environment overrides).  All attributes the
modelled methods touch are fields of `RMState`; configuration attributes are
set once in `RiskManager.__init__` and never mutated. -/

/-- `RiskState` enum. -/
inductive RiskState where
  | NORMAL
  | RECOVERY
  | PANIC
  | LOCKED
  deriving Repr, DecidableEq

/-- One record appended to `RiskManager.recovery_history`. -/
structure RecoveryRecord where
  streak : ℤ
  amount : ℚ
  loss : ℚ
  total_losses : ℚ
  timestamp : ℚ
  recovered : Bool
  deriving Repr, DecidableEq

/-- Mutable state (the `self` attributes) of a `RiskManager` instance. -/
structure RMState where
  state : RiskState
  -- configuration attributes (set in __init__, never mutated)
  base_amount : ℚ                      -- settings.TRADE_AMOUNT = 1.0
  balance_floor_pct : ℚ                -- 0.20
  daily_loss_limit_pct : ℚ             -- settings.DAILY_LOSS_LIMIT_PCT = 0.10
  daily_profit_limit_pct : ℚ           -- settings.DAILY_PROFIT_LIMIT_PCT = 0.10
  max_drawdown_pct : ℚ                 -- max(DAILY_LOSS_LIMIT_PCT, 0.15) = 0.15
  cooldown_after_loss : ℤ              -- settings.COOLDOWN_AFTER_LOSS = 3
  cooldown_after_win : ℤ               -- settings.COOLDOWN_AFTER_WIN = 1
  recovery_mode : String               -- settings.RECOVERY_MODE = "MARTINGALE"
  reset_on_win : Bool                  -- settings.RESET_ON_WIN = True
  smart_recovery : Bool                -- settings.SMART_RECOVERY = True
  max_recovery_amount_multiplier : ℚ   -- settings.MAX_RECOVERY_AMOUNT_MULTIPLIER = 5.0
  recovery_enabled : Bool              -- settings.RECOVERY_ENABLED = True
  recovery_multiplier : ℚ              -- settings.RECOVERY_MULTIPLIER = 2.0
  max_recovery_streak : ℤ              -- settings.MAX_RECOVERY_STREAK = 4
  max_open_trades : ℤ                  -- settings.MAX_TRADES = 100
  max_trades_per_hour : ℤ              -- settings.MAX_TRADES_PER_HOUR = 20
  fibonacci_sequence : List ℚ          -- config.fib_sequence = [1, 1, 2, 3, 5, 8]
  cfg_max_recovery_pct_balance : ℚ     -- config.max_recovery_pct_balance = 0.10
  cfg_panic_drawdown_frac : ℚ          -- config.panic_drawdown_ratio = 0.8
  cfg_panic_lock_seconds : ℚ           -- config.panic_lock_seconds = 1800
  cfg_lock_auto_expiry_seconds : ℚ     -- config.lock_auto_expiry_seconds = 3600
  -- recovery tracking
  consecutive_losses : ℤ
  consecutive_wins : ℤ
  recovery_streak : ℤ
  next_trade_amount : ℚ
  total_losses : ℚ
  recovery_target : ℚ
  recovery_history : List RecoveryRecord
  -- hourly overtrading protection
  trade_count_1h : ℤ
  last_reset_time : ℚ
  hourly_trades : List ℚ
  -- PnL monitoring
  start_day_balance : Option ℚ
  peak_balance : Option ℚ
  last_trade_amount : ℚ
  net_loss : ℚ
  daily_loss : ℚ
  daily_profit : ℚ
  last_trade_time : Option ℚ
  -- panic / lock tracking
  panic_until : Option ℚ
  locked_until : Option ℚ
  deriving DecidableEq

/-- `RiskManager.__init__()` with the default `RiskConfig` and the default
`config/settings.py` values (no environment overrides); `t0` is the value of
`time.time()` at construction (stored into `last_reset_time`). -/
def RMState.init (t0 : ℚ) : RMState :=
  { state := RiskState.NORMAL
    base_amount := 1
    balance_floor_pct := 0.20
    daily_loss_limit_pct := 0.10
    daily_profit_limit_pct := 0.10
    max_drawdown_pct := max 0.10 0.15
    cooldown_after_loss := 3
    cooldown_after_win := 1
    recovery_mode := "MARTINGALE"
    reset_on_win := true
    smart_recovery := true
    max_recovery_amount_multiplier := 5
    recovery_enabled := true
    recovery_multiplier := 2
    max_recovery_streak := 4
    max_open_trades := 100
    max_trades_per_hour := 20
    fibonacci_sequence := [1, 1, 2, 3, 5, 8]
    cfg_max_recovery_pct_balance := 0.10
    cfg_panic_drawdown_frac := 0.8
    cfg_panic_lock_seconds := 1800
    cfg_lock_auto_expiry_seconds := 3600
    consecutive_losses := 0
    consecutive_wins := 0
    recovery_streak := 0
    next_trade_amount := 1
    total_losses := 0
    recovery_target := 0
    recovery_history := []
    trade_count_1h := 0
    last_reset_time := t0
    hourly_trades := []
    start_day_balance := none
    peak_balance := none
    last_trade_amount := 1
    net_loss := 0
    daily_loss := 0
    daily_profit := 0
    last_trade_time := none
    panic_until := none
    locked_until := none }

/-- Round-half-to-even on `ℚ` (the tie-breaking rule of Python `round`). -/
def roundHalfEven (y : ℚ) : ℤ :=
  let f := ⌊y⌋
  let r := y - f
  if r < 1/2 then f
  else if r > 1/2 then f + 1
  else if f % 2 = 0 then f else f + 1

/-- Python `round(x, 2)` on the exact rational model. -/
def pyRound2 (x : ℚ) : ℚ := (roundHalfEven (x * 100) : ℚ) / 100

/-- `RiskManager._enter_panic`. -/
def enter_panic (s : RMState) (now : ℚ) : RMState :=
  { s with state := RiskState.PANIC,
           panic_until := some (now + s.cfg_panic_lock_seconds) }

/-- `RiskManager._enter_lock`. -/
def enter_lock (s : RMState) (now : ℚ) : RMState :=
  if s.cfg_lock_auto_expiry_seconds > 0 then
    { s with state := RiskState.LOCKED,
             locked_until := some (now + s.cfg_lock_auto_expiry_seconds) }
  else
    { s with state := RiskState.LOCKED }

/-- `RiskManager._check_drawdown` (uses `now` for `_enter_panic`).
Returns early when `peak_balance` or `start_day_balance` is falsy. -/
def check_drawdown (s : RMState) (now : ℚ) : RMState :=
  if ¬ pyTruthy s.peak_balance ∨ ¬ pyTruthy s.start_day_balance then s
  else
    let peak := s.peak_balance.getD 0
    let drawdown := s.net_loss / peak
    if drawdown ≥ s.max_drawdown_pct then
      { s with state := RiskState.LOCKED }
    else if drawdown ≥ s.max_drawdown_pct * s.cfg_panic_drawdown_frac then
      enter_panic s now
    else s

/-- `RiskManager._check_daily_loss`. -/
def check_daily_loss (s : RMState) (now : ℚ) : RMState :=
  if pyTruthy s.start_day_balance ∧
      s.daily_loss ≥ (s.start_day_balance.getD 0) * s.daily_loss_limit_pct then
    enter_lock s now
  else s

/-- `RiskManager.get_next_trade_amount(base_amount=None, balance=None)`.
Mutates the state when it forces panic, so the new state is returned with
the amount.  `base_amount or self.base_amount` and `balance or 0.0` follow
Python truthiness (both `None` and `0.0` fall through). -/
def get_next_trade_amount (s : RMState) (now : ℚ)
    (base_arg bal_arg : Option ℚ) : ℚ × RMState :=
  let base := match base_arg with
    | some b => if b = 0 then s.base_amount else b
    | none => s.base_amount
  let bal := match bal_arg with
    | some b => b
    | none => 0
  if ¬ s.recovery_enabled ∨ s.recovery_streak = 0 then (base, s)
  else if s.recovery_streak > s.max_recovery_streak then
    (0, enter_panic s now)
  else
    let fibIndex := min (s.recovery_streak - 1) (s.fibonacci_sequence.length - 1)
    let fibMultiplier := s.fibonacci_sequence.getD fibIndex.toNat 0
    let martingaleFactor := if s.recovery_streak ≥ 3 then s.recovery_multiplier else 1
    let raw₀ := base * fibMultiplier * martingaleFactor
    let raw := if s.smart_recovery then max raw₀ (|s.total_losses| / 0.82) else raw₀
    let maxAmount := s.base_amount * s.max_recovery_amount_multiplier
    let amount₀ := min raw maxAmount
    let amount₁ :=
      if bal > 0 then min amount₀ (bal * s.cfg_max_recovery_pct_balance) else amount₀
    let amount₂ :=
      if bal > 0 ∧ s.recovery_streak > 2 then min amount₁ (bal * 0.08) else amount₁
    (pyRound2 amount₂, s)

/-- WIN branch of `RiskManager.update_trade_outcome` (the body of
`if trade_result == "WON":`). -/
def update_outcome_won (s0 : RMState) (now : ℚ) (trade_amount : ℚ) : RMState :=
  let s1 : RMState :=
    if s0.recovery_enabled ∧ s0.recovery_streak > 0 then
      { s0 with trade_count_1h := s0.trade_count_1h + 1 }
    else s0
  let s2 : RMState :=
    { s1 with
      consecutive_losses := 0,
      consecutive_wins := s1.consecutive_wins + 1 }
  let s3 : RMState :=
    { s2 with
      total_losses := max 0 (s2.total_losses - trade_amount),
      net_loss := max 0 (s2.net_loss - trade_amount) }
  let s4 : RMState := { s3 with daily_profit := s3.daily_profit + trade_amount * 0.95 }
  let dailyProfitPct :=
    if pyTruthy s4.start_day_balance then
      s4.daily_profit / (s4.start_day_balance.getD 0)
    else 0
  let s5 : RMState :=
    if dailyProfitPct ≥ s4.daily_profit_limit_pct then
      { s4 with state := RiskState.LOCKED, locked_until := some (now + 3600) }
    else s4
  let s6 : RMState := { s5 with recovery_streak := max 0 (s5.recovery_streak - 2) }
  let s7 : RMState :=
    if s6.recovery_streak > 0 then
      let rec₀ : RecoveryRecord :=
        { streak := s6.recovery_streak, amount := s6.next_trade_amount,
          loss := trade_amount, total_losses := s6.total_losses,
          timestamp := now, recovered := true }
      { s6 with recovery_history := s6.recovery_history ++ [rec₀] }
    else s6
  if s7.reset_on_win ∧ s7.recovery_streak = (0 : ℤ) then
    { s7 with
      total_losses := 0, recovery_target := 0,
      next_trade_amount := s7.base_amount, state := RiskState.NORMAL }
  else s7

/-- LOSS branch of `RiskManager.update_trade_outcome` (the body of
`if trade_result == "LOST":`). -/
def update_outcome_lost (s0 : RMState) (now : ℚ) (trade_amount : ℚ) : RMState :=
  let s1 : RMState :=
    { s0 with
      consecutive_losses := s0.consecutive_losses + 1,
      consecutive_wins := 0,
      daily_loss := s0.daily_loss + trade_amount,
      net_loss := s0.net_loss + trade_amount }
  let s2 : RMState := { s1 with total_losses := s1.total_losses + trade_amount }
  let s3 : RMState := { s2 with recovery_streak := s2.recovery_streak + 1 }
  if s3.recovery_enabled then
    let amtSt := get_next_trade_amount s3 now none none
    let s4 : RMState :=
      { amtSt.2 with
        next_trade_amount := amtSt.1,
        recovery_target := |amtSt.2.total_losses| / 0.82,
        state := RiskState.RECOVERY }
    let rec₀ : RecoveryRecord :=
      { streak := s4.recovery_streak, amount := 0, loss := trade_amount,
        total_losses := s4.total_losses, timestamp := now, recovered := false }
    -- the LOSS-side history record has no "amount" key in the source;
    -- it is stored here as 0
    { s4 with recovery_history := s4.recovery_history ++ [rec₀] }
  else
    if s3.consecutive_losses ≥ 2 then
      let newAmount := min (trade_amount * 1.5) (s3.base_amount * 3)
      { s3 with next_trade_amount := newAmount }
    else
      { s3 with next_trade_amount := s3.base_amount }

/-- `RiskManager.update_trade_outcome(trade_result, trade_amount)`; `now` is
`time.time()` at entry (also used by the safety checks). -/
def update_trade_outcome (s0 : RMState) (now : ℚ)
    (trade_result : String) (trade_amount : ℚ) : RMState :=
  let s1 : RMState :=
    { s0 with
      last_trade_time := some now,
      hourly_trades := s0.hourly_trades ++ [now] }
  let s2 : RMState :=
    if ¬ (s1.recovery_enabled ∧ s1.recovery_streak > 0) then
      { s1 with trade_count_1h := s1.trade_count_1h + 1 }
    else s1
  let s3 : RMState := { s2 with last_trade_amount := trade_amount }
  let s4 : RMState := if trade_result = "WON" then update_outcome_won s3 now trade_amount else s3
  let s5 : RMState := if trade_result = "LOST" then update_outcome_lost s4 now trade_amount else s4
  let s6 : RMState :=
    if trade_result ≠ "WON" ∧ trade_result ≠ "LOST" then
      { s5 with next_trade_amount := s5.base_amount }
    else s5
  let s7 : RMState := check_drawdown s6 now
  check_daily_loss s7 now

/-- `RiskManager.start_session(balance)`; `now` is the `time.time()` stored in
`last_reset_time`. -/
def start_session (s : RMState) (balance : ℚ) (now : ℚ) : RMState :=
  { s with start_day_balance := some balance,
           peak_balance := some balance,
           daily_loss := 0,
           daily_profit := 0,
           net_loss := 0,
           recovery_streak := 0,
           total_losses := 0,
           recovery_history := [],
           trade_count_1h := 0,
           last_reset_time := now,
           hourly_trades := [],
           state := RiskState.NORMAL,
           panic_until := none,
           locked_until := none }

/-- `RiskManager.manual_unlock()`: returns the Python boolean result together
with the new state. -/
def manual_unlock (s : RMState) : Bool × RMState :=
  if s.state = RiskState.LOCKED then
    (true, { s with state := RiskState.NORMAL, locked_until := none })
  else
    (false, s)

/-- `RiskManager.reset_streak()`. -/
def reset_streak (s : RMState) : RMState :=
  { s with consecutive_losses := 0, consecutive_wins := 0, recovery_streak := 0,
           total_losses := 0, recovery_target := 0,
           next_trade_amount := s.base_amount, state := RiskState.NORMAL,
           panic_until := none }

/-- `RiskManager._check_recovery_limits(balance)` (pure check, no mutation). -/
def check_recovery_limits (s : RMState) (balance : ℚ) : Bool :=
  if s.recovery_streak ≥ s.max_recovery_streak then false
  else if s.next_trade_amount > balance * s.cfg_max_recovery_pct_balance then false
  else if s.next_trade_amount > s.base_amount * s.max_recovery_amount_multiplier then
    false
  else true

/-- Lock auto-expiry prologue of `RiskManager.allow_trade`. -/
def allow_trade_expire (s : RMState) (now : ℚ) : RMState :=
  if s.state = RiskState.LOCKED ∧ pyTruthy s.locked_until ∧
      now ≥ s.locked_until.getD 0 then
    { s with state := RiskState.NORMAL, locked_until := none }
  else s

/-- The `self.state = RiskState.NORMAL  # Exit panic if time passed`
assignment of `allow_trade` (no early return). -/
def allow_trade_exit_panic (s : RMState) : RMState :=
  if s.state = RiskState.PANIC then { s with state := RiskState.NORMAL } else s

/-- Day-tracker initialization and peak-balance update of `allow_trade`
(`is None` checks, then the peak comparison). -/
def allow_trade_trackers (s : RMState) (balance : ℚ) : RMState :=
  let s :=
    if s.start_day_balance.isNone then { s with start_day_balance := some balance }
    else s
  let s :=
    if s.peak_balance.isNone then { s with peak_balance := some balance } else s
  if balance > s.peak_balance.getD 0 then { s with peak_balance := some balance }
  else s

/-- Hourly-window reset of `allow_trade`. -/
def allow_trade_hourly_reset (s : RMState) (now : ℚ) : RMState :=
  if now - s.last_reset_time > 3600 then
    { s with trade_count_1h := 0, last_reset_time := now,
             hourly_trades := s.hourly_trades.filter (fun t => t > now - 3600) }
  else s

/-- Final section of `allow_trade`: panic on severe drawdown (no early
return), loss/win cooldown gates and the affordability check. -/
def allow_trade_final (s : RMState) (now : ℚ) (balance : ℚ) : Bool × RMState :=
  let drawdownCheck := s.peak_balance.isSome ∧ s.start_day_balance.isSome
  let drawdown := (s.peak_balance.getD 0 - balance) / s.peak_balance.getD 0
  let s :=
    if drawdownCheck ∧ drawdown ≥ s.max_drawdown_pct * s.cfg_panic_drawdown_frac then
      enter_panic s now
    else s
  if s.cooldown_after_loss > 0 ∧ s.consecutive_losses ≥ s.cooldown_after_loss then
    (false, s)
  else if s.cooldown_after_win > 0 ∧ s.consecutive_wins ≥ s.cooldown_after_win then
    (false, s)
  else if balance < s.next_trade_amount * 1.2 then (false, s)
  else (true, s)

/-- `RiskManager.allow_trade(current_open_count, balance)`; every call of
`time.time()` inside the method is modelled as the single instant `now`. -/
def allow_trade (s : RMState) (now : ℚ) (current_open_count : ℤ)
    (balance : ℚ) : Bool × RMState :=
  let s1 := allow_trade_expire s now
  if s1.state = RiskState.LOCKED then (false, s1)
  else if s1.state = RiskState.PANIC ∧ now < (s1.panic_until.getD 0) then (false, s1)
  else
  let s2 := allow_trade_exit_panic s1
  let s3 := allow_trade_trackers s2 balance
  if s3.recovery_enabled ∧ s3.recovery_streak > 0 ∧
      ¬ check_recovery_limits s3 balance then (false, s3)
  else
  let s4 := allow_trade_hourly_reset s3 now
  if ¬ (s4.recovery_enabled ∧ s4.recovery_streak > 0) ∧
      s4.trade_count_1h ≥ s4.max_trades_per_hour then (false, s4)
  else if current_open_count ≥ s4.max_open_trades then (false, s4)
  else if balance < balance * (s4.balance_floor_pct *
      (1 + (s4.recovery_streak : ℚ) * 0.05)) then (false, s4)
  else if (let dailyBlocked : Bool :=
             match s4.start_day_balance with
             | some b0 => (balance - b0) / b0 ≤ -s4.daily_loss_limit_pct
             | none => false
           dailyBlocked) then (false, enter_lock s4 now)
  else if (s4.peak_balance.isSome ∧ s4.start_day_balance.isSome) ∧
      (s4.peak_balance.getD 0 - balance) / s4.peak_balance.getD 0 ≥
        s4.max_drawdown_pct then
    (false, { s4 with state := RiskState.LOCKED })
  else allow_trade_final s4 now balance

/-! ## Dynamic call to `update_trade_outcome`

`RiskManager.update_trade_outcome` declares exactly two parameters besides
`self` (`trade_result: str`, `trade_amount: float`).  Python binds positional
arguments dynamically, raising `TypeError` when the count does not match, so
a call is modelled as applying the method to a list of dynamic arguments. -/

/-- A dynamically typed Python argument (the kinds appearing at the modelled
call sites). -/
inductive PyArg where
  | str (s : String)
  | num (q : ℚ)
  deriving Repr, DecidableEq

/-- Apply `RiskManager.update_trade_outcome` to a positional argument list.
The method's signature is `(self, trade_result: str, trade_amount: float)`,
so any other shape of argument list raises `TypeError` (modelled as
`Except.error`). -/
def call_update_trade_outcome (s : RMState) (now : ℚ) (args : List PyArg) :
    Except String RMState :=
  match args with
  | [PyArg.str trade_result, PyArg.num trade_amount] =>
      Except.ok (update_trade_outcome s now trade_result trade_amount)
  | _ => Except.error "TypeError"

/-! ## Reachable RiskManager states -/

/-- One externally triggered `RiskManager` operation. -/
inductive RMOp where
  | startSession (balance : ℚ) (now : ℚ)
  | updateOutcome (now : ℚ) (trade_result : String) (trade_amount : ℚ)
  | allowTrade (now : ℚ) (current_open_count : ℤ) (balance : ℚ)
  | manualUnlock
  | resetStreak
  | getNextAmount (now : ℚ) (base_arg bal_arg : Option ℚ)
  deriving Repr, DecidableEq

/-- Apply one operation to a `RiskManager` state (discarding any returned
value, keeping the mutated state). -/
def RMOp.apply (s : RMState) : RMOp → RMState
  | RMOp.startSession balance now => start_session s balance now
  | RMOp.updateOutcome now r amt => update_trade_outcome s now r amt
  | RMOp.allowTrade now c bal => (allow_trade s now c bal).2
  | RMOp.manualUnlock => (manual_unlock s).2
  | RMOp.resetStreak => reset_streak s
  | RMOp.getNextAmount now b bal => (get_next_trade_amount s now b bal).2

/-- Run a sequence of operations from a state. -/
def runOps (s : RMState) (ops : List RMOp) : RMState :=
  ops.foldl RMOp.apply s

/-! ## OrderExecutor (`backend/src/trading/order_executor.py`) -/

/-- A dynamically typed JSON value as it appears in broker contract-update
frames (the kinds the settlement detector inspects). -/
inductive JVal where
  | jbool (b : Bool)
  | jnum (q : ℚ)
  | jstr (s : String)
  deriving Repr, DecidableEq

/-- The fields of a `proposal_open_contract` / `contract` / `sell` update
frame that `_handle_contract_update` reads.  Every field is optional
(`data.get(...)`).  Fields the handler only copies into the persisted
contract record (entry/exit ticks, times, audit details) do not influence
any verified property and are not carried. -/
structure Frame where
  id : Option String := none            -- secondary uuid (`data.get("id")`)
  contract_id : Option String := none   -- `str(data.get("contract_id"))` when truthy
  is_sold : Option JVal := none
  status : Option String := none
  is_expired : Option JVal := none
  sell_price : Option ℚ := none
  bid_price : Option ℚ := none
  payout : Option ℚ := none
  buy_price : Option ℚ := none
  profit : Option ℚ := none
  contract_type : Option String := none
  deriving Repr, DecidableEq

/-- Python truthiness of an `Optional[str]`: `None` and `""` are falsy. -/
def pyTruthyStr (o : Option String) : Bool :=
  match o with
  | none => false
  | some s => s ≠ ""

/-- Python `a or b` on two `Optional[str]` values. -/
def pyOrStr (a b : Option String) : Option String :=
  if pyTruthyStr a then a else b

/-- `data.get("is_sold") in (True, 1, "1")` (Python `==` equates `True`,
`1` and `1.0`; the modelled candidates are the tuple members). -/
def is_sold_truthy (v : Option JVal) : Bool :=
  v = some (JVal.jbool true) ∨ v = some (JVal.jnum 1) ∨ v = some (JVal.jstr "1")

/-- `data.get("is_expired") in (True, 1)`. -/
def is_expired_truthy (v : Option JVal) : Bool :=
  v = some (JVal.jbool true) ∨ v = some (JVal.jnum 1)

/-- The settlement detector of `_handle_contract_update`: the `is_sold`
disjunction ORing the sold flag, the status string and the expired flag. -/
def settlement_detected (f : Frame) : Bool :=
  is_sold_truthy f.is_sold
    ∨ f.status = some "sold" ∨ f.status = some "won" ∨ f.status = some "lost"
    ∨ is_expired_truthy f.is_expired

/-- First non-`None` entry of the prioritized payout field list
`("sell_price", "bid_price", "payout", "buy_price")`. -/
def prioritized_payout (f : Frame) : Option ℚ :=
  match f.sell_price with
  | some v => some v
  | none =>
    match f.bid_price with
    | some v => some v
    | none =>
      match f.payout with
      | some v => some v
      | none => f.buy_price

/-- Payout extraction of `_handle_contract_update`: `payout` starts at `0.0`,
takes the first non-`None` prioritized field, and falls back to
`stake + profit` when it is still `0.0` and a `profit` field is present. -/
def extract_payout (f : Frame) (stake : ℚ) : ℚ :=
  let payout := (prioritized_payout f).getD 0
  if payout = 0 ∧ f.profit.isSome then stake + f.profit.getD 0
  else payout

/-- `result = "WON" if profit > 0 else "LOST"` with
`profit = payout - stake`. -/
def settle_result (f : Frame) (stake : ℚ) : String :=
  if extract_payout f stake - stake > 0 then "WON" else "LOST"

/-- ASCII `str.upper()` (every side/contract-type string in the system is
ASCII). -/
def asciiUpperChar (c : Char) : Char :=
  if 'a' ≤ c ∧ c ≤ 'z' then Char.ofNat (c.toNat - 32) else c

/-- Python `s.upper()` on the ASCII strings used for sides and contract
types. -/
def pyUpper (s : String) : String := String.mk (s.data.map asciiUpperChar)

/-- `OrderExecutor._map_to_deriv_contract_type`. -/
def map_to_deriv_contract_type (side : String) : String :=
  let s := pyUpper side
  if s = "RISE" then "CALL"
  else if s = "FALL" then "PUT"
  else if s = "CALL" ∨ s = "PUT" then s
  else "CALL"

/-- `OrderExecutor._map_from_deriv_contract_type`. -/
def map_from_deriv_contract_type (deriv_side : String) : String :=
  let s := pyUpper deriv_side
  if s = "CALL" then "RISE"
  else if s = "PUT" then "FALL"
  else s

/-- A `Trade` database row as far as the settlement handler reads it
(`TradeRepo.get`). -/
structure TradeRec where
  amount : ℚ
  symbol : String
  deriving Repr, DecidableEq

/-- External collaborators of the settlement handler: the trade repository
and the contract repository (`find` modelled by whether a row exists). -/
structure ExecEnv where
  trades : String → Option TradeRec
  contract_found : String → Bool

/-- Which side effects a single `_handle_contract_update` call performed.
`risk_raised` records that the `update_trade_outcome` call raised
`TypeError` and aborted the rest of the handler. -/
structure Effects where
  skipped_cleaned : Bool := false
  no_position : Bool := false
  position_broadcast : Bool := false
  trade_status_written : Bool := false
  contract_written : Bool := false
  risk_attempted : Bool := false
  risk_raised : Bool := false
  performance_called : Bool := false
  training_called : Bool := false
  mark_closed_called : Bool := false
  deriving Repr, DecidableEq

/-- `OrderExecutor._handle_contract_update(data)`.  Returns the new
position-manager state, the new risk-manager state and the effect record.
A raised exception aborts the remainder of the handler (it is caught by the
`_ws_listener` wrapper), leaving the states as they were at the raise
point. -/
def handle_contract_update (env : ExecEnv) (pm : PMState) (rm : RMState)
    (f : Frame) (now : ℚ) : PMState × RMState × Effects :=
  let contract_uuid := f.id
  let contract_id := f.contract_id
  if is_cleaned pm (pyStr contract_uuid) ∨ is_cleaned pm (pyStr contract_id) then
    (pm, rm, { skipped_cleaned := true })
  else
    let posOpt :=
      match get_position pm (pyStr contract_uuid) with
      | some p => some p
      | none => get_position pm (pyStr contract_id)
    match posOpt with
    | none => (pm, rm, { no_position := true })
    | some pos =>
      let pm :=
        if pyTruthyStr contract_uuid ∧ ¬ pyTruthyStr pos.uuid then
          update_contract_uuid pm pos.contract_id (contract_uuid.getD "")
        else pm
      if ¬ settlement_detected f then
        (pm, rm, { position_broadcast := true })
      else
        let stake := pos.entry_price
        let payout := extract_payout f stake
        let profit := payout - stake
        let result := settle_result f stake
        let tradeOpt := env.trades pos.trade_id
        let eff₀ : Effects :=
          { trade_status_written := tradeOpt.isSome,
            contract_written := env.contract_found pos.contract_id }
        match tradeOpt with
        | some trade =>
          -- `self.risk.update_trade_outcome(result, trade.amount, actual_profit)`
          -- passes three positional arguments to a two-parameter method
          let riskRes := call_update_trade_outcome rm now
            [PyArg.str result, PyArg.num trade.amount, PyArg.num profit]
          (match riskRes with
          | Except.error _ =>
              -- TypeError propagates: performance fan-out, ML training,
              -- mark_closed and the closing broadcast never run
              (pm, rm, { eff₀ with risk_attempted := true, risk_raised := true })
          | Except.ok rm' =>
              let pm' := mark_closed pm (pyStr (pyOrStr contract_uuid contract_id))
                result (some payout) now
              (pm', rm',
               { eff₀ with risk_attempted := true, performance_called := true,
                           training_called := true, mark_closed_called := true }))
        | none =>
          -- no trade row: risk update and performance fan-out are skipped
          let pm' := mark_closed pm (pyStr (pyOrStr contract_uuid contract_id))
            result (some payout) now
          (pm', rm, { eff₀ with training_called := true, mark_closed_called := true })

/-! ## SignalConsensus (`backend/src/core/signal_consensus.py`) -/

/-- The `meta` dict of a strategy signal, as far as the consensus engine
reads it: only `meta["strategy"]` is ever consulted.  The `single_trusted`
flag is carried so that "flagged as single trusted" inputs can be stated;
no line of `signal_consensus.py` reads it. -/
structure SigMeta where
  strategy : Option String := none
  single_trusted : Bool := false
  deriving Repr, DecidableEq

/-- One strategy signal handed to `SignalConsensus.aggregate`. -/
structure Signal where
  side : String
  score : ℚ
  meta : SigMeta := {}
  deriving Repr, DecidableEq

/-- The decision dict returned by a successful `aggregate` call. -/
structure Decision where
  side : String
  score : ℚ
  sources : ℕ
  strategies : List (Option String)
  method : String
  traditional_score : ℚ
  ml_score : ℚ
  deriving Repr, DecidableEq

/-- Membership test used by `pySet`. -/
def listHas : List (Option String) → Option String → Bool
  | [], _ => false
  | y :: ys, x => if x = y then true else listHas ys x

/-- A Python `set` built from a list (insertion keeping first occurrences;
only membership and cardinality are consumed). -/
def pySet (l : List (Option String)) : List (Option String) :=
  l.foldl (fun acc x => if listHas acc x then acc else acc ++ [x]) []

/-- `max(l)` on a (nonempty at every use site) list of scores; `0` on `[]`. -/
def listMax (l : List ℚ) : ℚ :=
  match l with
  | [] => 0
  | h :: t => t.foldl max h

/-- `min(l)` on a (nonempty at every use site) list of scores; `0` on `[]`. -/
def listMin (l : List ℚ) : ℚ :=
  match l with
  | [] => 0
  | h :: t => t.foldl min h

/-- `np.var` (population variance). -/
def listVar (l : List ℚ) : ℚ :=
  let n : ℚ := l.length
  let μ := l.sum / n
  ((l.map (fun x => (x - μ) * (x - μ))).sum) / n

/-- `MLConsensus.extract_features(signals, current_price, session_open)`:
six CALL/PUT count/sum/max features, two features for each of the three
named strategies, the normalized displacement from session open, and the
signal-score variance. -/
def extract_features (signals : List Signal) (current_price : ℚ)
    (session_open : Option ℚ) : List ℚ :=
  let call_signals := signals.filter (fun s => pyUpper s.side = "CALL")
  let put_signals := signals.filter (fun s => pyUpper s.side = "PUT")
  let basic : List ℚ :=
    [call_signals.length, put_signals.length,
     (call_signals.map Signal.score).sum, (put_signals.map Signal.score).sum,
     listMax (call_signals.map Signal.score), listMax (put_signals.map Signal.score)]
  let perStrategy : List ℚ :=
    ["mean_reversion", "momentum", "breakout"].flatMap (fun strat =>
      let strat_signals := signals.filter (fun s => s.meta.strategy = some strat)
      [(strat_signals.length : ℚ), (strat_signals.map Signal.score).sum])
  let priceFeature : ℚ :=
    match session_open with
    | some so => if so ≠ 0 ∧ so > 0 then (current_price - so) / so else 0
    | none => 0
  let scores := signals.map Signal.score
  let varFeature : ℚ := if scores.length > 1 then listVar scores else 0
  basic ++ perStrategy ++ [priceFeature, varFeature]

/-- `SignalConsensus.aggregate(signals, current_price, session_open)`.

Inputs mirroring the object's environment: `min_score` is `self.min_score`
(`settings.MIN_CONSENSUS_SCORE = 0.6` by default), `ml_enabled` is
`settings.ML_CONSENSUS_ENABLED`, `is_trained` is
`self.ml_consensus.is_trained`, and `predict` abstracts the trained
classifier `self.ml_consensus.predict` (returning a predicted side with its
probability, or `None`).

The result is `Except.error ()` when the weighted-consensus stage raises
`KeyError` (its accumulator dict has exactly the keys `"CALL"`/`"PUT"`, so
any other strong-signal side raises), and `Except.ok none` for every
abstention (`return None`) path. -/
def aggregate (min_score : ℚ) (ml_enabled is_trained : Bool)
    (predict : List ℚ → Option (String × ℚ))
    (signals : List Signal) (current_price : Option ℚ)
    (session_open : Option ℚ) : Except Unit (Option Decision) :=
  -- 0. sanity check
  if signals = [] then Except.ok none
  else
  -- 1. filter out weak signals
  let strong := signals.filter (fun s => s.score ≥ 0.6)
  if strong.length < 2 then Except.ok none
  else
  -- 2. strategy diversity check
  let strategies := pySet (strong.map (fun s => s.meta.strategy))
  if strategies.length < 2 then Except.ok none
  else
  -- 3. conflict detection
  let call_signals := strong.filter (fun s => pyUpper s.side = "CALL")
  let put_signals := strong.filter (fun s => pyUpper s.side = "PUT")
  let call_strength := (call_signals.map Signal.score).sum
  let put_strength := (put_signals.map Signal.score).sum
  let conflictAbstain : Bool :=
    if call_signals ≠ [] ∧ put_signals ≠ [] then
      let total_strength := call_strength + put_strength
      if total_strength > 0 then
        |call_strength - put_strength| / total_strength < 0.30
      else false
    else false
  if conflictAbstain then Except.ok none
  else
  -- 4. volatility filter
  let scores := strong.map Signal.score
  let volatility := listMax scores - listMin scores
  if volatility > 0.45 then Except.ok none
  else
  -- 5. traditional weighted consensus
  if ¬ strong.all (fun s => pyUpper s.side = "CALL" ∨ pyUpper s.side = "PUT") then
    Except.error ()
  else
  let aggCall := call_strength
  let aggPut := put_strength
  if aggCall = aggPut then Except.ok none
  else
  let traditional_side := if aggCall > aggPut then "CALL" else "PUT"
  let total := aggCall + aggPut
  let traditional_score := (if aggCall > aggPut then aggCall else aggPut) / total
  if traditional_score < max min_score 0.55 then Except.ok none
  else
  -- 6. ML consensus (feature-validated)
  let ml_result : Option (String × ℚ) :=
    if ml_enabled ∧ is_trained ∧ current_price.isSome then
      let features := extract_features strong (current_price.getD 0) session_open
      if features.length ≠ 13 then none
      else predict features
    else none
  -- 7. combination logic
  let combined : String × ℚ × String :=
    match ml_result with
    | some (ml_side, ml_score) =>
        if ml_score ≥ 0.70 ∧ ml_side = traditional_side ∧
            ml_score > traditional_score + 0.05 then
          (ml_side, ml_score, "ml_override")
        else
          (traditional_side, traditional_score, "traditional")
    | none => (traditional_side, traditional_score, "traditional")
  -- 8. final output
  Except.ok (some
    { side := combined.1, score := combined.2.1, sources := strong.length,
      strategies := strategies, method := combined.2.2,
      traditional_score := traditional_score,
      ml_score := (ml_result.map Prod.snd).getD 0 })

/-! ## Concrete fixtures used by the claim theorems -/

deriving instance DecidableEq for Except

/-- A fresh default `RiskManager` (constructed at `t = 0`). -/
def rm₀ : RMState := RMState.init 0

/-- Default manager after five consecutive `update_trade_outcome("LOST", 1.0)`
calls (at times 1..5), with no session started. -/
def rmFiveLosses : RMState := runOps rm₀
  [RMOp.updateOutcome 1 "LOST" 1, RMOp.updateOutcome 2 "LOST" 1,
   RMOp.updateOutcome 3 "LOST" 1, RMOp.updateOutcome 4 "LOST" 1,
   RMOp.updateOutcome 5 "LOST" 1]

/-- Default manager after three consecutive `update_trade_outcome("LOST", 1.0)`
calls (at times 1..3). -/
def rmThreeLosses : RMState := runOps rm₀
  [RMOp.updateOutcome 1 "LOST" 1, RMOp.updateOutcome 2 "LOST" 1,
   RMOp.updateOutcome 3 "LOST" 1]

/-- Default manager after `start_session(100)` and two $5 losses: the daily
loss reaches `100 × daily_loss_limit_pct = 10`, so the manager is LOCKED. -/
def rmLocked : RMState := runOps rm₀
  [RMOp.startSession 100 0, RMOp.updateOutcome 1 "LOST" 5,
   RMOp.updateOutcome 2 "LOST" 5]

/-- One active position: contract id "123", logical trade "t1", stake 1.0. -/
def pmOnePos : PMState := add_position PMState.init "t1" "123" "RISE" 1 none 0

/-- Settlement environment in which trade "t1" has a database row with
`amount = 1.0` and contract rows exist. -/
def envOneTrade : ExecEnv :=
  { trades := fun tid => if tid = "t1" then some { amount := 1, symbol := "R_100" } else none,
    contract_found := fun _ => true }

/-- A broker "sold" frame for contract "123" paying out 1.9. -/
def soldFrame : Frame :=
  { contract_id := some "123", status := some "sold", sell_price := some 1.9 }

/-- First delivery of `soldFrame`. -/
def firstDelivery : PMState × RMState × Effects :=
  handle_contract_update envOneTrade pmOnePos rm₀ soldFrame 10

/-- Second (identical) delivery of `soldFrame`, applied to the state left by
the first delivery. -/
def secondDelivery : PMState × RMState × Effects :=
  handle_contract_update envOneTrade firstDelivery.1 firstDelivery.2.1 soldFrame 11

/-! ## Claim theorems -/

/-- C1 (code bug): exactly-once settlement fails.  On a settled frame for an
active position whose `Trade` row exists, `_handle_contract_update` invokes
`update_trade_outcome` with three positional arguments (`result`,
`trade.amount`, `actual_profit`) although the method has two parameters, so
the call raises `TypeError` and the handler aborts before
`PositionManager.mark_closed`: the position is never cleaned, no callback
completes, and an identical second frame re-runs the whole settlement path
(trade-status write and risk-call attempt) instead of being a no-op. -/
theorem C1_duplicate_frame_reprocessed :
    firstDelivery.2.2.risk_attempted = true ∧
    firstDelivery.2.2.risk_raised = true ∧
    firstDelivery.2.2.mark_closed_called = false ∧
    firstDelivery.2.2.performance_called = false ∧
    firstDelivery.2.2.training_called = false ∧
    firstDelivery.1 = pmOnePos ∧
    is_cleaned firstDelivery.1 "123" = false ∧
    secondDelivery.2.2.trade_status_written = true ∧
    secondDelivery.2.2.risk_attempted = true ∧
    secondDelivery.2.2.skipped_cleaned = false ∧
    secondDelivery.2.2 = firstDelivery.2.2 := by
  decide

/-- C2 (code bug): after a fifth consecutive loss the recovery streak (5)
exceeds `max_recovery_streak` (4); `get_next_trade_amount` calls
`_enter_panic` (setting `panic_until`), but `update_trade_outcome`
immediately overwrites the state with `RECOVERY`, so the manager sits above
the cap outside PANIC (and `allow_trade` consults `panic_until` only when
the state is PANIC). -/
theorem C2_streak_above_cap_without_panic :
    rmFiveLosses.recovery_streak = 5 ∧
    rmFiveLosses.max_recovery_streak = 4 ∧
    rmFiveLosses.recovery_streak > rmFiveLosses.max_recovery_streak ∧
    rmFiveLosses.state = RiskState.RECOVERY ∧
    rmFiveLosses.state ≠ RiskState.PANIC ∧
    rmFiveLosses.panic_until = some 1805 := by
  decide

/-- C4 (code bug): the WON branch of `update_trade_outcome` reduces
`total_losses` by the `trade_amount` argument — the stake — not by the
realized profit, and the executor's call site passes three arguments to the
two-parameter method, raising `TypeError`.  After three $1 losses
(`total_losses = 3`) a won $1 trade with realized profit $0.82 leaves
`total_losses = 2` where the claim demands `3 − 0.82 = 2.18`; the other WON
effects (streak bookkeeping, daily profit, profit-lock check) do fire in the
two-argument method. -/
theorem C4_won_reduces_losses_by_stake :
    call_update_trade_outcome rmThreeLosses 4
        [PyArg.str "WON", PyArg.num 1, PyArg.num 0.82] = Except.error "TypeError" ∧
    (update_trade_outcome rmThreeLosses 4 "WON" 1).total_losses = 2 ∧
    ((2 : ℚ) ≠ 3 - 0.82) ∧
    (update_trade_outcome rmThreeLosses 4 "WON" 1).consecutive_losses = 0 ∧
    (update_trade_outcome rmThreeLosses 4 "WON" 1).consecutive_wins = 1 ∧
    (update_trade_outcome rmThreeLosses 4 "WON" 1).recovery_streak = 1 ∧
    (update_trade_outcome rmThreeLosses 4 "WON" 1).daily_profit = 0.95 := by
  decide

/-- C9 counterexample: `manual_unlock` on a LOCKED manager (daily loss 10
after two $5 losses against a $100 session) moves the state to NORMAL and
clears `locked_until`, but does not reset the daily P&L counters: the daily
loss is still 10 afterwards, refuting "also resets the daily P&L
counters". -/
theorem C9_manual_unlock_keeps_daily_pnl :
    rmLocked.state = RiskState.LOCKED ∧
    rmLocked.daily_loss = 10 ∧
    (manual_unlock rmLocked).2.state = RiskState.NORMAL ∧
    (manual_unlock rmLocked).2.locked_until = none ∧
    (manual_unlock rmLocked).2.daily_loss = 10 ∧
    ¬ (manual_unlock rmLocked).2.daily_loss = 0 := by
  decide

/-- C9 (amended): calling `manual_unlock` while LOCKED returns `True`,
transitions the state to NORMAL and clears the lock-expiry timestamp, and
leaves the daily P&L counters (`daily_profit`, `daily_loss`) unchanged. -/
theorem C9_manual_unlock_behavior (s : RMState) (h : s.state = RiskState.LOCKED) :
    (manual_unlock s).1 = true ∧
    (manual_unlock s).2.state = RiskState.NORMAL ∧
    (manual_unlock s).2.locked_until = none ∧
    (manual_unlock s).2.daily_profit = s.daily_profit ∧
    (manual_unlock s).2.daily_loss = s.daily_loss := by
  simp [manual_unlock, h]

/-- C9 witness: the amended behavior evaluated on the concrete LOCKED
manager `rmLocked`. -/
theorem C9_manual_unlock_behavior_witness :
    (manual_unlock rmLocked).1 = true ∧
    (manual_unlock rmLocked).2.state = RiskState.NORMAL ∧
    (manual_unlock rmLocked).2.locked_until = none ∧
    (manual_unlock rmLocked).2.daily_profit = rmLocked.daily_profit ∧
    (manual_unlock rmLocked).2.daily_loss = rmLocked.daily_loss :=
  C9_manual_unlock_behavior rmLocked (by decide)

/-- C10: `mark_closed` with an identifier that resolves to no active
position (neither a contract id nor a mapped uuid) leaves the whole
position-manager state unchanged, so `is_cleaned` is unchanged as well. -/
theorem C10_mark_closed_unknown_noop (s : PMState) (identifier result : String)
    (payout : Option ℚ) (now : ℚ) (h : get_position s identifier = none) :
    mark_closed s identifier result payout now = s ∧
    is_cleaned (mark_closed s identifier result payout now) identifier =
      is_cleaned s identifier := by
  unfold mark_closed
  rw [h]
  exact ⟨rfl, rfl⟩

/-- C10 witness: closing the unknown identifier "42" on an empty manager is
a no-op. -/
theorem C10_mark_closed_unknown_noop_witness :
    mark_closed PMState.init "42" "WON" none 0 = PMState.init ∧
    is_cleaned (mark_closed PMState.init "42" "WON" none 0) "42" =
      is_cleaned PMState.init "42" :=
  C10_mark_closed_unknown_noop PMState.init "42" "WON" none 0 (by decide)

/-- A settled frame whose first non-null prioritized payout field is
`sell_price = 0.0` while a `profit` field is present. -/
def zeroSellFrame : Frame :=
  { status := some "sold", sell_price := some 0, profit := some 0.5 }

/-- A frame carrying only `is_expired = true` (no `is_sold`, no status). -/
def expiredOnlyFrame : Frame :=
  { is_expired := some (JVal.jbool true), sell_price := some 1.9 }

/-- C5 counterexample: on a settled frame with `sell_price = 0.0` and
`profit = 0.5`, the first non-null prioritized field is `0.0`, but the
handler falls back to `stake + profit = 1.5` and records WON — the payout is
not "the first non-null field of the prioritized list" and the recorded
result differs from the one that payout implies. -/
theorem C5_payout_not_first_nonnull :
    prioritized_payout zeroSellFrame = some 0 ∧
    extract_payout zeroSellFrame 1 = 1.5 ∧
    extract_payout zeroSellFrame 1 ≠ 0 ∧
    settle_result zeroSellFrame 1 = "WON" := by
  decide

/-- C5 (amended): a contract-update frame is detected as settled whenever any
settlement indicator is present (in particular a truthy `is_expired` alone
suffices); the payout is the first non-null field of
`(sell_price, bid_price, payout, buy_price)` when that value is non-zero,
and `stake + profit` when the prioritized scan yields zero (or nothing) and
a `profit` field is present; the recorded result is WON exactly when
`payout − stake > 0`, otherwise LOST. -/
theorem C5_settlement_detection_payout_result (f : Frame) (stake : ℚ) :
    (is_expired_truthy f.is_expired = true → settlement_detected f = true) ∧
    (is_sold_truthy f.is_sold = true → settlement_detected f = true) ∧
    (f.status = some "sold" ∨ f.status = some "won" ∨ f.status = some "lost" →
      settlement_detected f = true) ∧
    (∀ p : ℚ, prioritized_payout f = some p → p ≠ 0 →
      extract_payout f stake = p) ∧
    ((prioritized_payout f).getD 0 = 0 → f.profit.isSome = true →
      extract_payout f stake = stake + f.profit.getD 0) ∧
    (settle_result f stake = "WON" ↔ extract_payout f stake - stake > 0) ∧
    (settle_result f stake ≠ "WON" → settle_result f stake = "LOST") := by
  refine ⟨?_, ?_, ?_, ?_, ?_, ?_, ?_⟩
  · intro h
    simp [settlement_detected, h]
  · intro h
    simp [settlement_detected, h]
  · intro h
    rcases h with h | h | h <;> simp [settlement_detected, h]
  · intro p hp hne
    unfold extract_payout
    rw [hp]
    simp [hne]
  · intro hz hp
    unfold extract_payout
    rw [hz]
    simp [hp]
  · unfold settle_result
    split <;> simp_all
  · intro h
    unfold settle_result at h ⊢
    split <;> simp_all

/-- C5 witness: the amended characterization evaluated on the
`is_expired`-only frame with stake 1: it is detected as settled and pays the
non-zero `sell_price` 1.9. -/
theorem C5_settlement_detection_payout_result_witness :
    settlement_detected expiredOnlyFrame = true ∧
    extract_payout expiredOnlyFrame 1 = 1.9 :=
  ⟨(C5_settlement_detection_payout_result expiredOnlyFrame 1).1 (by decide),
   (C5_settlement_detection_payout_result expiredOnlyFrame 1).2.2.2.1 1.9
     (by decide) (by decide)⟩

/-- A single strong signal explicitly flagged as "single trusted" in its
meta dict (a flag no line of `aggregate` consults). -/
def trustedSignal : Signal :=
  { side := "CALL", score := 0.9,
    meta := { strategy := some "momentum", single_trusted := true } }

/-- C6 counterexample: the documented single-trusted escape hatch does not
exist in `aggregate` — a lone strong signal flagged single-trusted (with a
trained classifier available and a price provided) still yields no
decision, because `len(strong) < 2` returns `None` unconditionally. -/
theorem C6_single_trusted_still_rejected :
    aggregate 0.6 true true (fun _ => some ("CALL", 0.99)) [trustedSignal]
      (some 100) (some 100) = Except.ok none := by
  decide

/-- C6 (amended): `aggregate` returns no decision whenever fewer than two
distinct strategies contribute among the strong (score ≥ 0.6) signals; there
is no single-trusted exception — in particular every single-signal input
returns no decision regardless of any flag it carries. -/
theorem C6_fewer_than_two_strategies_no_decision
    (min_score : ℚ) (ml_enabled is_trained : Bool)
    (predict : List ℚ → Option (String × ℚ))
    (signals : List Signal) (current_price session_open : Option ℚ)
    (h : (pySet ((signals.filter (fun s => s.score ≥ 0.6)).map
          (fun s => s.meta.strategy))).length < 2) :
    aggregate min_score ml_enabled is_trained predict signals current_price
      session_open = Except.ok none := by
  unfold aggregate
  by_cases h0 : signals = []
  · simp [h0]
  · rw [if_neg h0]
    by_cases h1 : (signals.filter (fun s => s.score ≥ 0.6)).length < 2
    · rw [if_pos h1]
    · rw [if_neg h1, if_pos h]

/-- C6 witness: the amended statement applied to the single-trusted signal
input (one strategy among the strong signals). -/
theorem C6_fewer_than_two_strategies_no_decision_witness :
    aggregate 0.6 true true (fun _ => some ("PUT", 0.99)) [trustedSignal]
      (some 100) (some 100) = Except.ok none :=
  C6_fewer_than_two_strategies_no_decision 0.6 true true
    (fun _ => some ("PUT", 0.99)) [trustedSignal] (some 100) (some 100)
    (by decide)

/-- Three strong signals from distinct strategies: CALL 0.65, CALL 0.65,
PUT 0.70, giving traditional side CALL with traditional score 0.65. -/
def mlScenario : List Signal :=
  [{ side := "CALL", score := 0.65, meta := { strategy := some "momentum" } },
   { side := "CALL", score := 0.65, meta := { strategy := some "breakout" } },
   { side := "PUT", score := 0.7, meta := { strategy := some "mean_reversion" } }]

/-- C7 (code bug): the classifier can never produce a prediction inside
`aggregate`: `extract_features` always returns 14 features while `aggregate`
demands exactly `EXPECTED_FEATURES = 13`, so the feature-length guard always
fails open to traditional.  Concretely, with traditional score 0.65 and a
trained classifier predicting the same side at confidence 0.99 (which the
claim says must override: 0.99 ≥ 0.70 and 0.99 ≥ 0.65 + 0.05), the decision
keeps the traditional side, score and method.  (Also, even if a prediction
were produced, the margin test uses strict `>`, not the claimed `≥`.) -/
theorem C7_ml_override_never_fires :
    (∀ (signals : List Signal) (p : ℚ) (so : Option ℚ),
      (extract_features signals p so).length = 14) ∧
    aggregate 0.6 true true (fun _ => some ("CALL", 0.99)) mlScenario
        (some 100) (some 99) =
      Except.ok (some
        { side := "CALL", score := 0.65, sources := 3,
          strategies := [some "momentum", some "breakout", some "mean_reversion"],
          method := "traditional", traditional_score := 0.65, ml_score := 0 }) := by
  constructor
  · intro signals p so
    simp [extract_features]
  · decide

/-- The C8 scenario: two strong signals from distinct strategies with
opposing sides, scores 0.70 and 0.65.  The spec's RISE/FALL side vocabulary
is realized as the broker vocabulary CALL/PUT inside `aggregate` (the
executor maps RISE↔CALL and FALL↔PUT, and `bot.py` converts `aggregate`'s
CALL/PUT decision back to RISE/FALL). -/
def conflictScenario : List Signal :=
  [{ side := "CALL", score := 0.70, meta := { strategy := some "momentum" } },
   { side := "PUT", score := 0.65, meta := { strategy := some "breakout" } }]

/-- C8: on opposing strong signals scoring 0.70 (RISE, realized as CALL) and
0.65 (FALL, realized as PUT) from distinct strategies, `aggregate` returns
no decision: the conflict ratio `|0.70 − 0.65| / (0.70 + 0.65) = 1/27 ≈
0.037` is below the 0.30 ambiguity threshold. -/
theorem C8_close_conflict_abstains :
    aggregate 0.6 false false (fun _ => none) conflictScenario none none =
      Except.ok none ∧
    |(0.70 : ℚ) - 0.65| / (0.70 + 0.65) = 1 / 27 ∧
    ((1 : ℚ) / 27 < 0.30) := by
  decide

/-- Default manager after starting a session with balance 5. -/
def rmSession5 : RMState := runOps rm₀ [RMOp.startSession 5 0]

/-- C3 counterexample: in the reachable state directly after
`start_session(5)`, the stored `next_trade_amount` is the base amount 1.0,
which already violates the claimed bound
`min(base_amount × max_recovery_amount_multiplier,
     balance × max_recovery_pct_balance) = min(5, 0.5) = 0.5`
at the session balance 5. -/
theorem C3_balance_cap_violated :
    rmSession5.next_trade_amount = 1 ∧
    rmSession5.start_day_balance = some 5 ∧
    rmSession5.base_amount * rmSession5.max_recovery_amount_multiplier = 5 ∧
    5 * rmSession5.cfg_max_recovery_pct_balance = 0.5 ∧
    ¬ rmSession5.next_trade_amount ≤
        min (rmSession5.base_amount * rmSession5.max_recovery_amount_multiplier)
          (5 * rmSession5.cfg_max_recovery_pct_balance) := by
  decide

/-- Round-half-even is bounded by any integer bound on its argument. -/
theorem roundHalfEven_le (y : ℚ) (n : ℤ) (h : y ≤ n) : roundHalfEven y ≤ n := by
  have hfl : ⌊y⌋ ≤ n := by
    have := Int.floor_le_floor (α := ℚ) h
    simpa using this
  have hstep : y - ⌊y⌋ > 0 → ⌊y⌋ + 1 ≤ n := by
    intro hpos
    have hlt : (⌊y⌋ : ℚ) < n := lt_of_lt_of_le (by linarith [Int.floor_le y]) h
    have : ⌊y⌋ < n := by exact_mod_cast hlt
    omega
  simp only [roundHalfEven]
  split_ifs with h1 h2 h3
  · exact hfl
  · exact hstep (by linarith)
  · exact hfl
  · have h12 : y - ⌊y⌋ = 1 / 2 := by linarith
    exact hstep (by rw [h12]; norm_num)

/-- `pyRound2` is bounded by any integer bound on its argument. -/
theorem pyRound2_le (x : ℚ) (n : ℤ) (h : x ≤ n) : pyRound2 x ≤ n := by
  have h100 : x * 100 ≤ ((100 * n : ℤ) : ℚ) := by
    push_cast
    linarith
  have := roundHalfEven_le (x * 100) (100 * n) h100
  unfold pyRound2
  rw [div_le_iff₀ (by norm_num : (0 : ℚ) < 100)]
  calc (roundHalfEven (x * 100) : ℚ) ≤ ((100 * n : ℤ) : ℚ) := by exact_mod_cast this
    _ = (n : ℚ) * 100 := by push_cast; ring

/-- Invariant for the amended C3: the default configuration constants
together with the sizing bound on the stored next-trade amount. -/
def NextAmountInv (s : RMState) : Prop :=
  s.base_amount = 1 ∧ s.max_recovery_amount_multiplier = 5 ∧
    s.next_trade_amount ≤ 5

theorem nextAmountInv_init (t0 : ℚ) : NextAmountInv (RMState.init t0) := by
  refine ⟨rfl, rfl, ?_⟩
  norm_num [RMState.init]

theorem nextAmountInv_enter_panic (s : RMState) (now : ℚ)
    (h : NextAmountInv s) : NextAmountInv (enter_panic s now) := h

theorem nextAmountInv_enter_lock (s : RMState) (now : ℚ)
    (h : NextAmountInv s) : NextAmountInv (enter_lock s now) := by
  unfold enter_lock
  split_ifs with h1
  · exact ⟨h.1, h.2.1, h.2.2⟩
  · exact ⟨h.1, h.2.1, h.2.2⟩

theorem nextAmountInv_check_drawdown (s : RMState) (now : ℚ)
    (h : NextAmountInv s) : NextAmountInv (check_drawdown s now) := by
  simp only [check_drawdown]
  split_ifs with h1 h2 h3
  · exact h
  · exact ⟨h.1, h.2.1, h.2.2⟩
  · exact nextAmountInv_enter_panic s now h
  · exact h

theorem nextAmountInv_check_daily_loss (s : RMState) (now : ℚ)
    (h : NextAmountInv s) : NextAmountInv (check_daily_loss s now) := by
  unfold check_daily_loss
  split_ifs with h1
  · exact nextAmountInv_enter_lock s now h
  · exact h

theorem nextAmountInv_start_session (s : RMState) (balance now : ℚ)
    (h : NextAmountInv s) : NextAmountInv (start_session s balance now) := h

theorem nextAmountInv_manual_unlock (s : RMState)
    (h : NextAmountInv s) : NextAmountInv (manual_unlock s).2 := by
  unfold manual_unlock
  split_ifs with h1
  · exact ⟨h.1, h.2.1, h.2.2⟩
  · exact h

theorem nextAmountInv_reset_streak (s : RMState)
    (h : NextAmountInv s) : NextAmountInv (reset_streak s) := by
  obtain ⟨hb, hm, _⟩ := h
  exact ⟨hb, hm, by simp [reset_streak, hb]⟩

/-- The raw (pre-cap) hybrid recovery amount of `get_next_trade_amount` when
called with default arguments: Fibonacci multiplier, martingale factor from
streak 3, and the smart-recovery target. -/
def rawRecoveryAmount (s : RMState) : ℚ :=
  let fibIndex := min (s.recovery_streak - 1) (s.fibonacci_sequence.length - 1)
  let fibMultiplier := s.fibonacci_sequence.getD fibIndex.toNat 0
  let martingaleFactor := if s.recovery_streak ≥ 3 then s.recovery_multiplier else 1
  let raw₀ := s.base_amount * fibMultiplier * martingaleFactor
  if s.smart_recovery then max raw₀ (|s.total_losses| / 0.82) else raw₀

/-- Closed form of `get_next_trade_amount` for the no-argument call used by
`update_trade_outcome`: with `balance = 0.0` both balance caps are skipped,
leaving only the `base_amount × max_recovery_amount_multiplier` cap. -/
theorem get_next_none_eq (s : RMState) (now : ℚ) :
    get_next_trade_amount s now none none =
      if ¬ s.recovery_enabled ∨ s.recovery_streak = 0 then (s.base_amount, s)
      else if s.recovery_streak > s.max_recovery_streak then (0, enter_panic s now)
      else (pyRound2 (min (rawRecoveryAmount s)
              (s.base_amount * s.max_recovery_amount_multiplier)), s) := by
  have hb0 : ¬ ((0 : ℚ) > 0) := by norm_num
  have hb1 : ¬ ((0 : ℚ) > 0 ∧ s.recovery_streak > 2) := fun hc => hb0 hc.1
  simp only [get_next_trade_amount, rawRecoveryAmount, if_neg hb0, if_neg hb1]

/-- The no-argument `get_next_trade_amount` value respects the multiplier
cap under the default configuration. -/
theorem get_next_none_fst_le (s : RMState) (now : ℚ)
    (hb : s.base_amount = 1) (hm : s.max_recovery_amount_multiplier = 5) :
    (get_next_trade_amount s now none none).1 ≤ 5 := by
  rw [get_next_none_eq]
  split_ifs
  · norm_num [hb]
  · norm_num
  · refine le_trans (pyRound2_le _ 5 ?_) (by norm_num)
    push_cast
    simp [min_le_iff, hb, hm]

/-- `get_next_trade_amount` mutates the state only through `_enter_panic`. -/
theorem get_next_snd (s : RMState) (now : ℚ) (b bal : Option ℚ) :
    (get_next_trade_amount s now b bal).2 = s ∨
      (get_next_trade_amount s now b bal).2 = enter_panic s now := by
  simp only [get_next_trade_amount]
  split_ifs <;> first | exact Or.inl rfl | exact Or.inr rfl

theorem nextAmountInv_get_next (s : RMState) (now : ℚ) (b bal : Option ℚ)
    (h : NextAmountInv s) : NextAmountInv (get_next_trade_amount s now b bal).2 := by
  rcases get_next_snd s now b bal with hs | hs <;> rw [hs]
  · exact h
  · exact nextAmountInv_enter_panic s now h

theorem nextAmountInv_ite (c : Prop) [Decidable c] (a b : RMState)
    (ha : NextAmountInv a) (hb : NextAmountInv b) :
    NextAmountInv (if c then a else b) := by
  split_ifs <;> assumption

theorem nextAmountInv_set_base (t : RMState) (h : NextAmountInv t) :
    NextAmountInv { t with next_trade_amount := t.base_amount } :=
  ⟨h.1, h.2.1, by rw [h.1]; norm_num⟩

theorem nextAmountInv_set_last (t : RMState) (amt : ℚ) (h : NextAmountInv t) :
    NextAmountInv { t with last_trade_amount := amt } :=
  ⟨h.1, h.2.1, h.2.2⟩

theorem nextAmountInv_set_count (t : RMState) (h : NextAmountInv t) :
    NextAmountInv { t with trade_count_1h := t.trade_count_1h + 1 } :=
  ⟨h.1, h.2.1, h.2.2⟩

theorem nextAmountInv_won (s : RMState) (now amt : ℚ) (h : NextAmountInv s) :
    NextAmountInv (update_outcome_won s now amt) := by
  obtain ⟨hb, hm, hn⟩ := h
  simp only [update_outcome_won]
  split_ifs <;> refine ⟨hb, hm, ?_⟩ <;> first | exact hn | norm_num [hb]

theorem nextAmountInv_lost (s : RMState) (now amt : ℚ) (h : NextAmountInv s) :
    NextAmountInv (update_outcome_lost s now amt) := by
  obtain ⟨hb, hm, hn⟩ := h
  simp only [update_outcome_lost]
  split_ifs with h1 h2
  · rcases get_next_snd _ now none none with hs | hs <;>
      rw [hs] <;> refine ⟨hb, hm, ?_⟩ <;>
      exact get_next_none_fst_le _ now hb hm
  · refine ⟨hb, hm, ?_⟩
    refine le_trans (min_le_right _ _) ?_
    norm_num [hb]
  · exact ⟨hb, hm, by norm_num [hb]⟩

theorem nextAmountInv_update (s : RMState) (now : ℚ) (r : String) (amt : ℚ)
    (h : NextAmountInv s) : NextAmountInv (update_trade_outcome s now r amt) := by
  simp only [update_trade_outcome]
  apply nextAmountInv_check_daily_loss
  apply nextAmountInv_check_drawdown
  apply nextAmountInv_ite
  all_goals try apply nextAmountInv_set_base
  all_goals apply nextAmountInv_ite
  all_goals try apply nextAmountInv_lost
  all_goals apply nextAmountInv_ite
  all_goals try apply nextAmountInv_won
  all_goals apply nextAmountInv_set_last
  all_goals apply nextAmountInv_ite
  all_goals try apply nextAmountInv_set_count
  all_goals exact ⟨h.1, h.2.1, h.2.2⟩

theorem nextAmountInv_allow_trade_expire (s : RMState) (now : ℚ)
    (h : NextAmountInv s) : NextAmountInv (allow_trade_expire s now) := by
  unfold allow_trade_expire
  split_ifs
  · exact ⟨h.1, h.2.1, h.2.2⟩
  · exact h

theorem nextAmountInv_allow_trade_exit_panic (s : RMState)
    (h : NextAmountInv s) : NextAmountInv (allow_trade_exit_panic s) := by
  unfold allow_trade_exit_panic
  split_ifs
  · exact ⟨h.1, h.2.1, h.2.2⟩
  · exact h

theorem nextAmountInv_allow_trade_trackers (s : RMState) (balance : ℚ)
    (h : NextAmountInv s) : NextAmountInv (allow_trade_trackers s balance) := by
  simp only [allow_trade_trackers]
  split_ifs <;> exact ⟨h.1, h.2.1, h.2.2⟩

theorem nextAmountInv_allow_trade_hourly_reset (s : RMState) (now : ℚ)
    (h : NextAmountInv s) : NextAmountInv (allow_trade_hourly_reset s now) := by
  unfold allow_trade_hourly_reset
  split_ifs
  · exact ⟨h.1, h.2.1, h.2.2⟩
  · exact h

theorem nextAmountInv_allow_trade_final (s : RMState) (now balance : ℚ)
    (h : NextAmountInv s) : NextAmountInv (allow_trade_final s now balance).2 := by
  simp only [allow_trade_final]
  split_ifs <;> exact ⟨h.1, h.2.1, h.2.2⟩

theorem nextAmountInv_allow_trade (s : RMState) (now : ℚ) (c : ℤ) (bal : ℚ)
    (h : NextAmountInv s) : NextAmountInv (allow_trade s now c bal).2 := by
  simp only [allow_trade]
  have h1 := nextAmountInv_allow_trade_expire s now h
  have h3 := nextAmountInv_allow_trade_trackers
    (allow_trade_exit_panic (allow_trade_expire s now)) bal
    (nextAmountInv_allow_trade_exit_panic _ h1)
  have h4 := nextAmountInv_allow_trade_hourly_reset
    (allow_trade_trackers (allow_trade_exit_panic (allow_trade_expire s now)) bal)
    now h3
  split_ifs <;>
    first
      | exact h1
      | exact h3
      | exact h4
      | exact ⟨h4.1, h4.2.1, h4.2.2⟩
      | exact nextAmountInv_enter_lock _ _ h4
      | exact nextAmountInv_allow_trade_final _ _ _ h4

theorem nextAmountInv_apply (s : RMState) (op : RMOp)
    (h : NextAmountInv s) : NextAmountInv (RMOp.apply s op) := by
  cases op with
  | startSession balance now => exact nextAmountInv_start_session s balance now h
  | updateOutcome now r amt => exact nextAmountInv_update s now r amt h
  | allowTrade now c bal => exact nextAmountInv_allow_trade s now c bal h
  | manualUnlock => exact nextAmountInv_manual_unlock s h
  | resetStreak => exact nextAmountInv_reset_streak s h
  | getNextAmount now b bal => exact nextAmountInv_get_next s now b bal h

theorem nextAmountInv_runOps (s : RMState) (ops : List RMOp)
    (h : NextAmountInv s) : NextAmountInv (runOps s ops) := by
  induction ops generalizing s with
  | nil => exact h
  | cons op rest ih => exact ih (RMOp.apply s op) (nextAmountInv_apply s op h)

/-- C3 (amended): in every state reachable from a freshly constructed
default `RiskManager` through any sequence of session starts, outcome
updates, admission checks, unlocks, resets and sizing calls, the stored
`next_trade_amount` is at most `base_amount × max_recovery_amount_multiplier`.
The `balance × max_recovery_pct_balance` cap of the original claim does not
bound the stored amount (see the counterexample): it is applied only inside
`get_next_trade_amount` when a positive balance argument is passed, and
`update_trade_outcome` stores the result of the no-argument call, which
uses `balance = 0.0`. -/
theorem C3_next_amount_multiplier_cap (t0 : ℚ) (ops : List RMOp) :
    (runOps (RMState.init t0) ops).next_trade_amount ≤
      (runOps (RMState.init t0) ops).base_amount *
        (runOps (RMState.init t0) ops).max_recovery_amount_multiplier := by
  have h := nextAmountInv_runOps (RMState.init t0) ops (nextAmountInv_init t0)
  obtain ⟨hb, hm, hn⟩ := h
  rw [hb, hm]
  linarith
